import Mathlib

/-!
Verification of the GitHub Copilot CLI adapter (core/llm_github_copilot.go)
against its specification, together with the earlier revision of the
token-usage parser.

Strings are modelled as lists of characters.  Go's regexp engine decodes the
input into runes; every character mentioned by the patterns is ASCII, so the
rune view and the character-list view agree.

The usage regex
  (\d+(?:\.\d+)?)(k?)\s+input,\s*(\d+(?:\.\d+)?)(k?)\s+output,\s*
  (\d+(?:\.\d+)?)(k?)\s+cache read(?:,\s*(\d+(?:\.\d+)?)(k?)\s+cache write)?
contains no alternation, and every adjacent pair of its elements draws from
disjoint character classes (digits, a dot, the letter k, whitespace, and the
fixed literals), so Go's leftmost-first match is computed exactly by a greedy
matcher with no backtracking, tried at each start position from the left.
That greedy matcher is what is defined below.
-/

/-- Convert a string literal to the character-list representation used
throughout this development. -/
def str (s : String) : List Char := s.toList

/-- RE2 character class `\d`: the ASCII digits 0-9. -/
def isDigitChar (c : Char) : Bool := c.isDigit

/-- RE2 character class `\s`: tab, newline, form feed, carriage return, space. -/
def isSpaceChar (c : Char) : Bool :=
  c == ' ' || c == '\t' || c == '\n' || c == '\x0c' || c == '\r'

/-- Match the regex fragment `(\d+(?:\.\d+)?)` at the head of the input,
greedily: one or more digits, optionally followed by a dot and one or more
digits.  Returns the captured characters and the rest of the input. -/
def matchNumber (l : List Char) : Option (List Char × List Char) :=
  match l.span isDigitChar with
  | ([], _) => none
  | (ds, rest) =>
    match rest with
    | '.' :: rest2 =>
      match rest2.span isDigitChar with
      | ([], _) => some (ds, rest)
      | (fs, rest3) => some (ds ++ '.' :: fs, rest3)
    | _ => some (ds, rest)

/-- Match the regex fragment `(k?)` at the head of the input (the pattern is
written with a literal lower-case k and no case-insensitive flag). -/
def matchK : List Char → List Char × List Char
  | 'k' :: rest => (['k'], rest)
  | l => ([], l)

/-- Match `\s+`: at least one whitespace character, consumed greedily. -/
def matchSpaces1 (l : List Char) : Option (List Char) :=
  match l.span isSpaceChar with
  | ([], _) => none
  | (_, rest) => some rest

/-- Match `\s*`: whitespace consumed greedily. -/
def matchSpaces0 (l : List Char) : List Char :=
  (l.span isSpaceChar).2

/-- Match a literal character sequence at the head of the input. -/
def matchLit : List Char → List Char → Option (List Char)
  | [], l => some l
  | _ :: _, [] => none
  | c :: cs, x :: xs => if x == c then matchLit cs xs else none

/-- Capture groups 1-6 of the usage pattern: the input, output and cache-read
values together with their optional k suffixes. -/
structure UsageCore where
  inVal : List Char
  inK : List Char
  outVal : List Char
  outK : List Char
  readVal : List Char
  readK : List Char
  deriving DecidableEq

/-- All capture groups of the usage pattern; `write` holds groups 7-8 when the
optional cache-write clause matched, and is `none` when it did not (in which
case Go reports the two groups as empty strings). -/
structure UsageGroups where
  core : UsageCore
  write : Option (List Char × List Char)
  deriving DecidableEq

/-- Match the mandatory part of the usage pattern, up to and including the
literal "cache read", at the head of the input.  Returns the six captures and
the rest of the input. -/
def matchUsageCore (l : List Char) : Option (UsageCore × List Char) := do
  let (v1, r1) ← matchNumber l
  let (k1, r2) := matchK r1
  let r3 ← matchSpaces1 r2
  let r4 ← matchLit (str "input,") r3
  let r5 := matchSpaces0 r4
  let (v2, r6) ← matchNumber r5
  let (k2, r7) := matchK r6
  let r8 ← matchSpaces1 r7
  let r9 ← matchLit (str "output,") r8
  let r10 := matchSpaces0 r9
  let (v3, r11) ← matchNumber r10
  let (k3, r12) := matchK r11
  let r13 ← matchSpaces1 r12
  let r14 ← matchLit (str "cache read") r13
  some (⟨v1, k1, v2, k2, v3, k3⟩, r14)

/-- Match the cache-write clause `,\s*(\d+(?:\.\d+)?)(k?)\s+cache write` at the
head of the input, returning capture groups 7-8. -/
def matchWriteTail (l : List Char) : Option (List Char × List Char) := do
  let r1 ← matchLit (str ",") l
  let r2 := matchSpaces0 r1
  let (v4, r3) ← matchNumber r2
  let (k4, r4) := matchK r3
  let r5 ← matchSpaces1 r4
  let _ ← matchLit (str "cache write") r5
  some (v4, k4)

/-- Attempt the current revision's regex at one start position: the mandatory
part followed by the optional cache-write clause. -/
def matchUsageAt (l : List Char) : Option UsageGroups :=
  match matchUsageCore l with
  | none => none
  | some (c, rest) => some ⟨c, matchWriteTail rest⟩

/-- Attempt the earlier revision's regex at one start position: the same
mandatory part followed by a mandatory cache-write clause. -/
def matchUsageOldAt (l : List Char) : Option UsageGroups :=
  match matchUsageCore l with
  | none => none
  | some (c, rest) =>
    match matchWriteTail rest with
    | none => none
    | some w => some ⟨c, some w⟩

/-- FindStringSubmatch: try the matcher at every start position from the left
and return the first success. -/
def findAux (f : List Char → Option UsageGroups) : List Char → Option UsageGroups
  | [] => f []
  | c :: cs =>
    match f (c :: cs) with
    | some g => some g
    | none => findAux f cs

/-- Leftmost match of the current revision's usage regex. -/
def findUsage (text : List Char) : Option UsageGroups := findAux matchUsageAt text

/-- Leftmost match of the earlier revision's usage regex. -/
def findUsageOld (text : List Char) : Option UsageGroups := findAux matchUsageOldAt text

/-- Numeric value of a digit sequence. -/
def digitsToNat (ds : List Char) : Nat :=
  ds.foldl (fun n c => n * 10 + (c.toNat - '0'.toNat)) 0

/-- Model of strconv.ParseFloat on the strings the capture groups can produce:
a digit sequence optionally followed by a dot and a digit sequence, yielding
the exact rational num / 10 ^ d; every other input (in particular the empty
string delivered for an absent capture group) is a parse error.  On all values
appearing in this development the float64 computation of the original program
and this exact rational computation truncate to the same integer. -/
def parseGoFloat (s : List Char) : Option (Nat × Nat) :=
  match s.span isDigitChar with
  | ([], _) => none
  | (ds, []) => some (digitsToNat ds, 0)
  | (ds, '.' :: rest) =>
    match rest.span isDigitChar with
    | (fs, []) =>
      if fs.isEmpty then none
      else some (digitsToNat ds * 10 ^ fs.length + digitsToNat fs, fs.length)
    | _ => none
  | _ => none

/-- parseTokenValue: parse the captured value, multiply by 1000 when the
lower-cased multiplier string equals "k", then truncate to an integer; a value
that fails to parse yields 0.  Two deliberate limits of this model of the
source's float64 pipeline: (1) the truncation is computed on the exact
rational, while the source truncates the float64 product, which can differ by
one unit on some fractional captures (for instance 2.01k gives 2009 in the
source and 2010 here); every concrete value appearing in a theorem below was
checked to agree between the two computations, and no universal theorem below
depends on the absolute value of a fractional capture.  (2) Go's int64
conversion of a float beyond 2^63 is implementation-dependent (not a wrap),
so it is left out: theorems about individual field values carry explicit
in-range guards, and captured values at or above 2^63 are outside the model's
faithful envelope. -/
def parseTokenValue (valueStr multiplierStr : List Char) : Int :=
  match parseGoFloat valueStr with
  | none => 0
  | some (num, d) =>
    if multiplierStr.map Char.toLower = ['k'] then
      Int.ofNat (num * 1000 / 10 ^ d)
    else
      Int.ofNat (num / 10 ^ d)

/-- Two's-complement wrap to a signed 64-bit integer, the defined semantics
of Go's int64 addition. -/
def int64wrap (n : Int) : Int :=
  (n + 2 ^ 63) % 2 ^ 64 - 2 ^ 63

/-- LLMTokenUsage: the token-usage record.  The int64 fields are carried as
Int, with Go's wrapping int64 addition applied explicitly (int64wrap) where
the source adds two fields; an individual field holds the exactly-converted
captured value, which represents the source faithfully when it lies below
2^63 (see parseTokenValue for the conversion caveat beyond that bound). -/
structure LLMTokenUsage where
  InputTokens : Int
  OutputTokens : Int
  CachedTokenReads : Int
  CachedTokenWrites : Int
  TotalTokens : Int
  deriving DecidableEq

/-- The Go zero value of LLMTokenUsage. -/
def zeroUsage : LLMTokenUsage := ⟨0, 0, 0, 0, 0⟩

/-- parseCopilotTokenMetadata: run the current usage regex over the stderr
text; on a match (FindStringSubmatch returns 9 submatches, so the length
guard holds) fill the fields from the captures, with the absent optional
cache-write group delivered as empty strings and the total computed by Go's
wrapping int64 addition of the input and output fields; otherwise leave the
record at its zero value. -/
def parseCopilotTokenMetadata (copilotclimetadata : List Char) : LLMTokenUsage :=
  match findUsage copilotclimetadata with
  | none => zeroUsage
  | some g =>
    let tIn := parseTokenValue g.core.inVal g.core.inK
    let tOut := parseTokenValue g.core.outVal g.core.outK
    let tRead := parseTokenValue g.core.readVal g.core.readK
    let tWrite :=
      match g.write with
      | some (v, k) => parseTokenValue v k
      | none => parseTokenValue [] []
    ⟨tIn, tOut, tRead, tWrite, int64wrap (tIn + tOut)⟩

/-- parseLLMTokenUsage, the earlier revision: its regex makes the cache-write
clause mandatory (its FindStringSubmatch also returns 9 submatches on
success, satisfying the guard), each field is parsed inline with exactly
the ParseFloat / ToLower / scale / truncate logic of parseTokenValue, and the
total is the same wrapping int64 addition. -/
def parseLLMTokenUsage (output : List Char) : LLMTokenUsage :=
  match findUsageOld output with
  | none => zeroUsage
  | some g =>
    let tIn := parseTokenValue g.core.inVal g.core.inK
    let tOut := parseTokenValue g.core.outVal g.core.outK
    let tRead := parseTokenValue g.core.readVal g.core.readK
    let tWrite :=
      match g.write with
      | some (v, k) => parseTokenValue v k
      | none => 0
    ⟨tIn, tOut, tRead, tWrite, int64wrap (tIn + tOut)⟩

/-- The recognized model-name alias list, in source order. -/
def gitHubModelPrefixes : List (List Char) :=
  [str "github-", str "github/", str "gh-", str "gh/", str "ghcp-", str "ghcp/"]

/-- StripGitHubModelPrefix: remove the first alias in list order that is a
literal prefix of the model name (strings.TrimPrefix drops exactly the
matched characters); an unrecognized name is returned unchanged. -/
def StripGitHubModelPrefix (model : List Char) : List Char :=
  match gitHubModelPrefixes.find? (fun p => p.isPrefixOf model) with
  | some p => model.drop p.length
  | none => model

example : StripGitHubModelPrefix (str "github-gpt-5") = str "gpt-5" := by decide
example : StripGitHubModelPrefix (str "claude-3") = str "claude-3" := by decide
example : StripGitHubModelPrefix (str "gh-github-gpt-5") = str "github-gpt-5" := by decide

/-- A conversation message: role and content. -/
structure ModelMessage where
  Role : List Char
  Content : List Char
  deriving DecidableEq

/-- A tool call requested by the model.  This adapter never constructs one;
only the (empty) list of them appears in responses. -/
structure LLMToolCall where
  ID : List Char
  deriving DecidableEq

/-- LLMResponse: content, tool calls, and token usage. -/
structure LLMResponse where
  Content : List Char
  ToolCalls : List LLMToolCall
  TokenUsage : LLMTokenUsage
  deriving DecidableEq

/-- The outcome of reading the sandboxed command's two output streams:
Stdout and Stderr each either fail (an execution error propagated unchanged)
or deliver the captured text. -/
structure SandboxResult where
  Stdout : Except (List Char) (List Char)
  Stderr : Except (List Char) (List Char)

/-- The outcomes of the three Int64Gauge acquisitions performed before
validation (telemetry is an external collaborator; its failures are modelled
as inputs). -/
structure GaugeResults where
  inputTokensGauge : Except (List Char) Unit
  inputTokensCacheReadsGauge : Except (List Char) Unit
  outputTokensGauge : Except (List Char) Unit

/-- The distinct error returns of SendQuery.  emptyHistory carries the message
"prompt/chat history cannot be empty - run with-prompt to add a prompt/message"
and lastNotUser the message "the last message in history must be from the
user"; these two are the validation errors. -/
inductive SendQueryError where
  | gaugeError (msg : List Char)
  | emptyHistory
  | lastNotUser
  | execError (msg : List Char)
  deriving DecidableEq

/-- The exec arguments handed to the sandboxed container. -/
def copilotArgs (copilotModel promptContent : List Char) : List (List Char) :=
  [str "copilot", str "--model", copilotModel, str "--prompt", promptContent,
    str "--stream", str "off"]

/-- SendQuery: strip the model prefix, acquire the three gauges (in source
order), validate the history (non-empty, last message from the user), run the
copilot command in the sandbox, read stdout as the content and stderr as the
usage metadata, and assemble the response with an empty tool-call list.  The
sandbox is a function from exec arguments to stream results, so a run that
never executes a command is one whose result does not depend on this
function. -/
def SendQuery (endpointModel : List Char) (gauges : GaugeResults)
    (history : List ModelMessage)
    (sandbox : List (List Char) → SandboxResult) :
    Except SendQueryError LLMResponse :=
  let copilotModel := StripGitHubModelPrefix endpointModel
  match gauges.inputTokensGauge with
  | .error e => .error (.gaugeError (str "failed to get inputTokens gauge: " ++ e))
  | .ok _ =>
    match gauges.inputTokensCacheReadsGauge with
    | .error e => .error (.gaugeError (str "failed to get inputTokensCacheReads gauge: " ++ e))
    | .ok _ =>
      match gauges.outputTokensGauge with
      | .error e => .error (.gaugeError (str "failed to get outputTokens gauge: " ++ e))
      | .ok _ =>
        match history.getLast? with
        | none => .error .emptyHistory
        | some prompt =>
          if prompt.Role ≠ str "user" then .error .lastNotUser
          else
            let res := sandbox (copilotArgs copilotModel prompt.Content)
            match res.Stdout with
            | .error e => .error (.execError e)
            | .ok content =>
              match res.Stderr with
              | .error e => .error (.execError e)
              | .ok meta => .ok ⟨content, [], parseCopilotTokenMetadata meta⟩

/-- IsRetryable: no automatic retry, whatever the error (none models a nil
error). -/
def IsRetryable (err : Option (List Char)) : Bool := false

/-- A result of SendQuery is a validation error when it is one of the two
pre-sandbox history checks. -/
def isValidationError (r : Except SendQueryError LLMResponse) : Bool :=
  match r with
  | .error .emptyHistory => true
  | .error .lastNotUser => true
  | _ => false

theorem isPrefixOf_append_drop :
    ∀ (p l : List Char), p.isPrefixOf l = true → p ++ l.drop p.length = l
  | [], _, _ => by simp
  | _ :: _, [], h => by simp at h
  | a :: as, b :: bs, h => by
    rw [List.isPrefixOf_cons₂] at h
    obtain ⟨hab, htl⟩ := Bool.and_eq_true_iff.mp h
    simp only [List.cons_append, List.length_cons, List.drop_succ_cons]
    rw [eq_of_beq hab, isPrefixOf_append_drop as bs htl]

theorem find?_first_match (L₁ L₂ : List (List Char)) (p model : List Char)
    (h₁ : ∀ q ∈ L₁, q.isPrefixOf model = false) (h₂ : p.isPrefixOf model = true) :
    (L₁ ++ p :: L₂).find? (fun q => q.isPrefixOf model) = some p := by
  rw [List.find?_append]
  have hnone : L₁.find? (fun q => q.isPrefixOf model) = none :=
    List.find?_eq_none.mpr (fun x hx => by simp [h₁ x hx])
  rw [hnone]
  simp only [Option.none_or]
  exact List.find?_cons_of_pos _ h₂

theorem sendQuery_empty_eq (endpointModel : List Char) (g : GaugeResults)
    (history : List ModelMessage) (s : List (List Char) → SandboxResult)
    (hg1 : g.inputTokensGauge = .ok ()) (hg2 : g.inputTokensCacheReadsGauge = .ok ())
    (hg3 : g.outputTokensGauge = .ok ()) (hL : history.getLast? = none) :
    SendQuery endpointModel g history s = .error .emptyHistory := by
  simp [SendQuery, hg1, hg2, hg3, hL]

theorem sendQuery_notUser_eq (endpointModel : List Char) (g : GaugeResults)
    (history : List ModelMessage) (s : List (List Char) → SandboxResult)
    (m : ModelMessage)
    (hg1 : g.inputTokensGauge = .ok ()) (hg2 : g.inputTokensCacheReadsGauge = .ok ())
    (hg3 : g.outputTokensGauge = .ok ()) (hL : history.getLast? = some m)
    (hr : m.Role ≠ str "user") :
    SendQuery endpointModel g history s = .error .lastNotUser := by
  simp [SendQuery, hg1, hg2, hg3, hL, hr]

theorem sendQuery_run_eq (endpointModel : List Char) (g : GaugeResults)
    (history : List ModelMessage) (s : List (List Char) → SandboxResult)
    (m : ModelMessage)
    (hg1 : g.inputTokensGauge = .ok ()) (hg2 : g.inputTokensCacheReadsGauge = .ok ())
    (hg3 : g.outputTokensGauge = .ok ()) (hL : history.getLast? = some m)
    (hr : m.Role = str "user") :
    SendQuery endpointModel g history s =
      match (s (copilotArgs (StripGitHubModelPrefix endpointModel) m.Content)).Stdout with
      | .error e => .error (.execError e)
      | .ok content =>
        match (s (copilotArgs (StripGitHubModelPrefix endpointModel) m.Content)).Stderr with
        | .error e => .error (.execError e)
        | .ok meta => .ok ⟨content, [], parseCopilotTokenMetadata meta⟩ := by
  simp [SendQuery, hg1, hg2, hg3, hL, hr]

theorem matchUsageOldAt_of_write (l : List Char) (g : UsageGroups)
    (w : List Char × List Char) (h : matchUsageAt l = some g) (hw : g.write = some w) :
    matchUsageOldAt l = some g := by
  unfold matchUsageAt at h
  unfold matchUsageOldAt
  cases hc : matchUsageCore l with
  | none => rw [hc] at h; cases h
  | some cr =>
    obtain ⟨c, rest⟩ := cr
    rw [hc] at h
    dsimp at h ⊢
    cases h
    dsimp at hw
    rw [hw]

theorem matchUsageOldAt_none (l : List Char) (h : matchUsageAt l = none) :
    matchUsageOldAt l = none := by
  unfold matchUsageAt at h
  unfold matchUsageOldAt
  cases hc : matchUsageCore l with
  | none => rfl
  | some cr => rw [hc] at h; cases h

theorem findAux_old_agree :
    ∀ (text : List Char) (g : UsageGroups) (w : List Char × List Char),
      g.write = some w → findAux matchUsageAt text = some g →
      findAux matchUsageOldAt text = some g
  | [], g, w, hw, h => by
    unfold findAux at h ⊢
    exact matchUsageOldAt_of_write [] g w h hw
  | c :: cs, g, w, hw, h => by
    unfold findAux at h ⊢
    cases hm : matchUsageAt (c :: cs) with
    | some g2 =>
      rw [hm] at h
      cases h
      rw [matchUsageOldAt_of_write (c :: cs) g w hm hw]
    | none =>
      rw [hm] at h
      rw [matchUsageOldAt_none (c :: cs) hm]
      exact findAux_old_agree cs g w hw h

/-- C1: for every history that is empty or whose last message is not from the
user role, SendQuery returns a validation error and its result does not depend
on the sandbox (no command is executed, no stream is read); for a history
ending in a user message no validation error is raised.  The three telemetry
gauge acquisitions, which in the source precede validation, are assumed to
succeed (telemetry is an external collaborator). -/
theorem sendQuery_validates_before_sandbox (endpointModel : List Char)
    (g : GaugeResults) (history : List ModelMessage)
    (s s₁ s₂ : List (List Char) → SandboxResult)
    (hg1 : g.inputTokensGauge = .ok ()) (hg2 : g.inputTokensCacheReadsGauge = .ok ())
    (hg3 : g.outputTokensGauge = .ok ()) :
    ((history = [] ∨ ∃ m, history.getLast? = some m ∧ m.Role ≠ str "user") →
      isValidationError (SendQuery endpointModel g history s) = true ∧
      SendQuery endpointModel g history s₁ = SendQuery endpointModel g history s₂) ∧
    ((∃ m, history.getLast? = some m ∧ m.Role = str "user") →
      isValidationError (SendQuery endpointModel g history s) = false) := by
  constructor
  · rintro (hemp | ⟨m, hL, hr⟩)
    · have hL : history.getLast? = none := by rw [hemp]; rfl
      rw [sendQuery_empty_eq endpointModel g history s hg1 hg2 hg3 hL,
        sendQuery_empty_eq endpointModel g history s₁ hg1 hg2 hg3 hL,
        sendQuery_empty_eq endpointModel g history s₂ hg1 hg2 hg3 hL]
      exact ⟨rfl, rfl⟩
    · rw [sendQuery_notUser_eq endpointModel g history s m hg1 hg2 hg3 hL hr,
        sendQuery_notUser_eq endpointModel g history s₁ m hg1 hg2 hg3 hL hr,
        sendQuery_notUser_eq endpointModel g history s₂ m hg1 hg2 hg3 hL hr]
      exact ⟨rfl, rfl⟩
  · rintro ⟨m, hL, hr⟩
    rw [sendQuery_run_eq endpointModel g history s m hg1 hg2 hg3 hL hr]
    cases hS : (s (copilotArgs (StripGitHubModelPrefix endpointModel) m.Content)).Stdout with
    | error e => rfl
    | ok c =>
      cases hE : (s (copilotArgs (StripGitHubModelPrefix endpointModel) m.Content)).Stderr with
      | error e => rfl
      | ok meta => rfl

/-- C1 witness: an empty history is rejected as a validation error. -/
theorem sendQuery_validates_before_sandbox_witness :
    isValidationError (SendQuery (str "github-gpt-5") ⟨.ok (), .ok (), .ok ()⟩ []
      (fun _ => ⟨.ok [], .ok []⟩)) = true :=
  ((sendQuery_validates_before_sandbox (str "github-gpt-5") ⟨.ok (), .ok (), .ok ()⟩ []
      (fun _ => ⟨.ok [], .ok []⟩) (fun _ => ⟨.ok [], .ok []⟩) (fun _ => ⟨.ok [], .ok []⟩)
      rfl rfl rfl).1 (Or.inl rfl)).1

/-- C2: for a history ending in a user message, when both stream reads
succeed, SendQuery returns a response whose content is exactly the captured
standard output and whose tool-call list is empty. -/
theorem sendQuery_returns_stdout_content (endpointModel : List Char)
    (g : GaugeResults) (history : List ModelMessage)
    (s : List (List Char) → SandboxResult) (m : ModelMessage) (out meta : List Char)
    (hg1 : g.inputTokensGauge = .ok ()) (hg2 : g.inputTokensCacheReadsGauge = .ok ())
    (hg3 : g.outputTokensGauge = .ok ()) (hL : history.getLast? = some m)
    (hr : m.Role = str "user")
    (hout : (s (copilotArgs (StripGitHubModelPrefix endpointModel) m.Content)).Stdout = .ok out)
    (herr : (s (copilotArgs (StripGitHubModelPrefix endpointModel) m.Content)).Stderr = .ok meta) :
    SendQuery endpointModel g history s = .ok ⟨out, [], parseCopilotTokenMetadata meta⟩ := by
  rw [sendQuery_run_eq endpointModel g history s m hg1 hg2 hg3 hL hr, hout, herr]

/-- C2 witness: a concrete run whose content is the sandbox stdout. -/
theorem sendQuery_returns_stdout_content_witness :
    SendQuery (str "github-gpt-5") ⟨.ok (), .ok (), .ok ()⟩
      [⟨str "user", str "hello"⟩]
      (fun _ => ⟨.ok (str "the answer"), .ok (str "diagnostics")⟩) =
      .ok ⟨str "the answer", [], parseCopilotTokenMetadata (str "diagnostics")⟩ :=
  sendQuery_returns_stdout_content (str "github-gpt-5") ⟨.ok (), .ok (), .ok ()⟩
    [⟨str "user", str "hello"⟩]
    (fun _ => ⟨.ok (str "the answer"), .ok (str "diagnostics")⟩)
    ⟨str "user", str "hello"⟩ (str "the answer") (str "diagnostics")
    rfl rfl rfl rfl rfl rfl rfl

/-- C3: StripGitHubModelPrefix removes exactly the first alias of the fixed
list that is a literal prefix of the model name, removes it once, and leaves
a name without any recognized alias unchanged; with the three documented
examples. -/
theorem stripGitHubModelPrefix_first_match (model : List Char) :
    ((∀ q ∈ gitHubModelPrefixes, q.isPrefixOf model = false) →
      StripGitHubModelPrefix model = model) ∧
    (∀ (L₁ : List (List Char)) (p : List Char) (L₂ : List (List Char)),
      gitHubModelPrefixes = L₁ ++ p :: L₂ →
      (∀ q ∈ L₁, q.isPrefixOf model = false) →
      p.isPrefixOf model = true →
      p ++ StripGitHubModelPrefix model = model) ∧
    StripGitHubModelPrefix (str "github-gpt-5") = str "gpt-5" ∧
    StripGitHubModelPrefix (str "claude-3") = str "claude-3" ∧
    StripGitHubModelPrefix (str "gh-github-gpt-5") = str "github-gpt-5" := by
  refine ⟨?_, ?_, by decide, by decide, by decide⟩
  · intro hnone
    unfold StripGitHubModelPrefix
    rw [List.find?_eq_none.mpr (fun x hx => by simp [hnone x hx])]
  · intro L₁ p L₂ hsplit h₁ h₂
    unfold StripGitHubModelPrefix
    rw [hsplit, find?_first_match L₁ L₂ p model h₁ h₂]
    exact isPrefixOf_append_drop p model h₂

/-- C3 witness: only the first matching alias of "gh-github-gpt-5" is
stripped. -/
theorem stripGitHubModelPrefix_first_match_witness :
    str "gh-" ++ StripGitHubModelPrefix (str "gh-github-gpt-5") = str "gh-github-gpt-5" :=
  (stripGitHubModelPrefix_first_match (str "gh-github-gpt-5")).2.1
    [str "github-", str "github/"] (str "gh-") [str "gh/", str "ghcp-", str "ghcp/"]
    (by decide) (by decide) (by decide)

/-- C4: the usage extractor on the documented example line yields 7500 input,
52 output, 3600 cache-read and 3700 cache-write tokens, and a 7552 total. -/
theorem usageExtractor_section8_example :
    parseCopilotTokenMetadata (str "claude-sonnet-4.5    7.5k input, 52 output, 3.6k cache read, 3.7k cache write (Est. 1 Premium request)") =
      ⟨7500, 52, 3600, 3700, 7552⟩ := by decide

/-- C5: when the usage pattern matches without the optional cache-write
clause, cachedTokenWrites is zero and the remaining fields are computed from
the same first six captures as always; on the documented example with the
cache-write clause removed all other fields are unchanged. -/
theorem usageExtractor_optional_cache_write (text : List Char) (g : UsageGroups)
    (h : findUsage text = some g) (hw : g.write = none) :
    (parseCopilotTokenMetadata text).CachedTokenWrites = 0 ∧
    parseCopilotTokenMetadata text =
      ⟨parseTokenValue g.core.inVal g.core.inK,
        parseTokenValue g.core.outVal g.core.outK,
        parseTokenValue g.core.readVal g.core.readK,
        0,
        int64wrap (parseTokenValue g.core.inVal g.core.inK +
          parseTokenValue g.core.outVal g.core.outK)⟩ ∧
    parseCopilotTokenMetadata (str "claude-sonnet-4.5    7.5k input, 52 output, 3.6k cache read (Est. 1 Premium request)") =
      ⟨7500, 52, 3600, 0, 7552⟩ := by
  have hz : parseTokenValue [] [] = 0 := rfl
  have h2 : parseCopilotTokenMetadata text =
      ⟨parseTokenValue g.core.inVal g.core.inK,
        parseTokenValue g.core.outVal g.core.outK,
        parseTokenValue g.core.readVal g.core.readK,
        0,
        int64wrap (parseTokenValue g.core.inVal g.core.inK +
          parseTokenValue g.core.outVal g.core.outK)⟩ := by
    simp only [parseCopilotTokenMetadata, h, hw, hz]
  exact ⟨by rw [h2], h2, by decide⟩

/-- C5 witness: on the documented example without the cache-write clause the
cache-write count is zero. -/
theorem usageExtractor_optional_cache_write_witness :
    (parseCopilotTokenMetadata (str "claude-sonnet-4.5    7.5k input, 52 output, 3.6k cache read (Est. 1 Premium request)")).CachedTokenWrites = 0 :=
  (usageExtractor_optional_cache_write
    (str "claude-sonnet-4.5    7.5k input, 52 output, 3.6k cache read (Est. 1 Premium request)")
    ⟨⟨str "7.5", str "k", str "52", [], str "3.6", str "k"⟩, none⟩
    (by decide) rfl).1

/-- C6: when the usage pattern is not found anywhere, the extractor returns
the all-zero record and raises no error, and SendQuery still returns a
successful response carrying that all-zero usage. -/
theorem usageExtractor_silent_zero_usage (text : List Char)
    (hN : findUsage text = none) (endpointModel : List Char) (g : GaugeResults)
    (history : List ModelMessage) (s : List (List Char) → SandboxResult)
    (m : ModelMessage) (out : List Char)
    (hg1 : g.inputTokensGauge = .ok ()) (hg2 : g.inputTokensCacheReadsGauge = .ok ())
    (hg3 : g.outputTokensGauge = .ok ()) (hL : history.getLast? = some m)
    (hr : m.Role = str "user")
    (hout : (s (copilotArgs (StripGitHubModelPrefix endpointModel) m.Content)).Stdout = .ok out)
    (herr : (s (copilotArgs (StripGitHubModelPrefix endpointModel) m.Content)).Stderr = .ok text) :
    parseCopilotTokenMetadata text = zeroUsage ∧
    SendQuery endpointModel g history s = .ok ⟨out, [], zeroUsage⟩ := by
  have hz : parseCopilotTokenMetadata text = zeroUsage := by
    simp only [parseCopilotTokenMetadata, hN]
  refine ⟨hz, ?_⟩
  rw [sendQuery_run_eq endpointModel g history s m hg1 hg2 hg3 hL hr, hout, herr]
  dsimp only
  rw [hz]

/-- C6 witness: a concrete run whose stderr contains no usage pattern. -/
theorem usageExtractor_silent_zero_usage_witness :
    parseCopilotTokenMetadata (str "no usage information in this text") = zeroUsage ∧
    SendQuery (str "github-gpt-5") ⟨.ok (), .ok (), .ok ()⟩
      [⟨str "user", str "hi"⟩]
      (fun _ => ⟨.ok (str "an answer"), .ok (str "no usage information in this text")⟩) =
      .ok ⟨str "an answer", [], zeroUsage⟩ :=
  usageExtractor_silent_zero_usage (str "no usage information in this text")
    (by decide) (str "github-gpt-5") ⟨.ok (), .ok (), .ok ()⟩
    [⟨str "user", str "hi"⟩]
    (fun _ => ⟨.ok (str "an answer"), .ok (str "no usage information in this text")⟩)
    ⟨str "user", str "hi"⟩ (str "an answer")
    rfl rfl rfl rfl rfl rfl rfl

/-- C7 counterexample: on a diagnostic line carrying two five-quintillion
token counts (each exactly representable in float64 and within int64 range)
the int64 addition computing TotalTokens wraps: the total is negative and
differs from the sum of inputTokens and outputTokens, refuting the claim as
stated. -/
theorem usage_total_overflow_counterexample :
    (parseCopilotTokenMetadata (str "5000000000000000000 input, 5000000000000000000 output, 1 cache read")).InputTokens = 5000000000000000000 ∧
    (parseCopilotTokenMetadata (str "5000000000000000000 input, 5000000000000000000 output, 1 cache read")).OutputTokens = 5000000000000000000 ∧
    (parseCopilotTokenMetadata (str "5000000000000000000 input, 5000000000000000000 output, 1 cache read")).TotalTokens = -8446744073709551616 ∧
    (parseCopilotTokenMetadata (str "5000000000000000000 input, 5000000000000000000 output, 1 cache read")).TotalTokens ≠
      (parseCopilotTokenMetadata (str "5000000000000000000 input, 5000000000000000000 output, 1 cache read")).InputTokens +
        (parseCopilotTokenMetadata (str "5000000000000000000 input, 5000000000000000000 output, 1 cache read")).OutputTokens ∧
    (parseCopilotTokenMetadata (str "5000000000000000000 input, 5000000000000000000 output, 1 cache read")).TotalTokens < 0 :=
  ⟨by decide, by decide, by decide, by decide, by decide⟩

/-- C7 amended: whenever every parsed field is within int64 range — beyond
2^63 the source's float-to-int64 conversion is implementation-dependent and
the model stops representing it, so the guards delimit the faithful envelope
rather than feed the proof — the four parsed fields are non-negative, and
totalTokens is the wrapped 64-bit sum of inputTokens and outputTokens; when
that sum itself stays below 2^63 the total equals inputTokens + outputTokens
and is non-negative. -/
theorem usage_total_wrapped_and_nonneg (text : List Char)
    (hIn : (parseCopilotTokenMetadata text).InputTokens < 2 ^ 63)
    (hOut : (parseCopilotTokenMetadata text).OutputTokens < 2 ^ 63)
    (hRead : (parseCopilotTokenMetadata text).CachedTokenReads < 2 ^ 63)
    (hWrite : (parseCopilotTokenMetadata text).CachedTokenWrites < 2 ^ 63) :
    0 ≤ (parseCopilotTokenMetadata text).InputTokens ∧
    0 ≤ (parseCopilotTokenMetadata text).OutputTokens ∧
    0 ≤ (parseCopilotTokenMetadata text).CachedTokenReads ∧
    0 ≤ (parseCopilotTokenMetadata text).CachedTokenWrites ∧
    (parseCopilotTokenMetadata text).TotalTokens =
      int64wrap ((parseCopilotTokenMetadata text).InputTokens +
        (parseCopilotTokenMetadata text).OutputTokens) ∧
    ((parseCopilotTokenMetadata text).InputTokens +
        (parseCopilotTokenMetadata text).OutputTokens < 2 ^ 63 →
      (parseCopilotTokenMetadata text).TotalTokens =
        (parseCopilotTokenMetadata text).InputTokens +
          (parseCopilotTokenMetadata text).OutputTokens ∧
      0 ≤ (parseCopilotTokenMetadata text).TotalTokens) := by
  have hnn : ∀ v k, 0 ≤ parseTokenValue v k := by
    intro v k
    unfold parseTokenValue
    cases parseGoFloat v with
    | none => exact le_refl 0
    | some nd =>
      obtain ⟨n, d⟩ := nd
      dsimp only
      split
      · exact Int.ofNat_nonneg _
      · exact Int.ofNat_nonneg _
  have hwrap : ∀ n : Int, 0 ≤ n → n < 2 ^ 63 → int64wrap n = n := by
    intro n h0 h1
    unfold int64wrap
    have e1 : (2 : Int) ^ 63 = 9223372036854775808 := by norm_num
    have e2 : (2 : Int) ^ 64 = 18446744073709551616 := by norm_num
    rw [e1] at h1
    rw [e1, e2]
    omega
  unfold parseCopilotTokenMetadata
  cases hf : findUsage text with
  | none =>
    exact ⟨le_refl 0, le_refl 0, le_refl 0, le_refl 0, by decide,
      fun _ => ⟨by decide, le_refl 0⟩⟩
  | some g =>
    dsimp only
    refine ⟨hnn _ _, hnn _ _, hnn _ _, ?_, rfl, ?_⟩
    · cases hw : g.write with
      | none => exact hnn _ _
      | some vk =>
        obtain ⟨v, k⟩ := vk
        exact hnn _ _
    · intro hsum
      have h0 : 0 ≤ parseTokenValue g.core.inVal g.core.inK +
          parseTokenValue g.core.outVal g.core.outK :=
        add_nonneg (hnn _ _) (hnn _ _)
      refine ⟨hwrap _ h0 hsum, ?_⟩
      rw [hwrap _ h0 hsum]
      exact h0

/-- C7 amended witness: a concrete in-range line whose total is the exact
non-negative sum. -/
theorem usage_total_wrapped_and_nonneg_witness :
    0 ≤ (parseCopilotTokenMetadata (str "12 input, 34 output, 56 cache read, 78 cache write (Est. 1 Premium request)")).InputTokens ∧
    (parseCopilotTokenMetadata (str "12 input, 34 output, 56 cache read, 78 cache write (Est. 1 Premium request)")).TotalTokens =
      (parseCopilotTokenMetadata (str "12 input, 34 output, 56 cache read, 78 cache write (Est. 1 Premium request)")).InputTokens +
        (parseCopilotTokenMetadata (str "12 input, 34 output, 56 cache read, 78 cache write (Est. 1 Premium request)")).OutputTokens :=
  ⟨(usage_total_wrapped_and_nonneg (str "12 input, 34 output, 56 cache read, 78 cache write (Est. 1 Premium request)")
      (by decide) (by decide) (by decide) (by decide)).1,
    ((usage_total_wrapped_and_nonneg (str "12 input, 34 output, 56 cache read, 78 cache write (Est. 1 Premium request)")
      (by decide) (by decide) (by decide) (by decide)).2.2.2.2.2 (by decide)).1⟩

/-- C8 counterexample: on the documented example written with an upper-case K
suffix the pattern does not match at all, so no value is scaled by 1000 and
the extractor yields the all-zero record instead of the claimed token
counts. -/
theorem kSuffix_uppercase_no_match :
    findUsage (str "claude-sonnet-4.5    7.5K input, 52 output, 3.6K cache read, 3.7K cache write (Est. 1 Premium request)") = none ∧
    parseCopilotTokenMetadata (str "claude-sonnet-4.5    7.5K input, 52 output, 3.6K cache read, 3.7K cache write (Est. 1 Premium request)") =
      zeroUsage := ⟨by decide, by decide⟩

/-- C8 amended: the thousands suffix in the usage pattern is matched
case-sensitively, lower-case k only: a lower-case suffix scales the value by
1000, while writing it as upper-case K prevents the usage pattern from
matching that line at all; the value parser itself lower-cases the captured
suffix, but the pattern never captures an upper-case K. -/
theorem kSuffix_case_sensitive :
    (∀ v : List Char, parseTokenValue v (str "K") = parseTokenValue v (str "k")) ∧
    (parseCopilotTokenMetadata (str "claude-sonnet-4.5    7.5k input, 52 output, 3.6k cache read, 3.7k cache write (Est. 1 Premium request)")).InputTokens = 7500 ∧
    findUsage (str "claude-sonnet-4.5    7.5K input, 52 output, 3.6K cache read, 3.7K cache write (Est. 1 Premium request)") = none := by
  refine ⟨?_, by decide, by decide⟩
  intro v
  unfold parseTokenValue
  have hK : (str "K").map Char.toLower = ['k'] := by decide
  have hk : (str "k").map Char.toLower = ['k'] := by decide
  rw [hK, hk]

/-- C9: IsRetryable is constant false, whatever the error value (none models
a nil error, some an execution failure). -/
theorem isRetryable_always_false (err : Option (List Char)) :
    IsRetryable err = false := rfl

/-- C10 counterexample: a text in which the full usage pattern including the
cache-write clause occurs, yet the two parser revisions disagree, because an
earlier occurrence without the clause is matched by the current parser but
skipped by the earlier one. -/
theorem parsers_differ_with_full_pattern_present :
    findUsageOld (str "1 input, 2 output, 3 cache read x 4 input, 5 output, 6 cache read, 7 cache write") =
      some ⟨⟨str "4", [], str "5", [], str "6", []⟩, some (str "7", [])⟩ ∧
    parseCopilotTokenMetadata (str "1 input, 2 output, 3 cache read x 4 input, 5 output, 6 cache read, 7 cache write") =
      ⟨1, 2, 3, 0, 3⟩ ∧
    parseLLMTokenUsage (str "1 input, 2 output, 3 cache read x 4 input, 5 output, 6 cache read, 7 cache write") =
      ⟨4, 5, 6, 7, 9⟩ := ⟨by decide, by decide, by decide⟩

/-- C10 amended: the two parser revisions return equal records on every text
whose leftmost match of the current regex includes the cache-write clause;
they can differ whenever that match lacks the clause, even if a full
occurrence with the clause appears later in the text. -/
theorem parsers_agree_when_match_has_cache_write (text : List Char)
    (g : UsageGroups) (w : List Char × List Char)
    (hw : g.write = some w) (h : findUsage text = some g) :
    parseLLMTokenUsage text = parseCopilotTokenMetadata text := by
  have hOld : findUsageOld text = some g := findAux_old_agree text g w hw h
  obtain ⟨v, k⟩ := w
  simp only [parseLLMTokenUsage, parseCopilotTokenMetadata, h, hOld, hw]

/-- C10 amended witness: both parsers agree on the documented full example. -/
theorem parsers_agree_when_match_has_cache_write_witness :
    parseLLMTokenUsage (str "claude-sonnet-4.5    7.5k input, 52 output, 3.6k cache read, 3.7k cache write (Est. 1 Premium request)") =
    parseCopilotTokenMetadata (str "claude-sonnet-4.5    7.5k input, 52 output, 3.6k cache read, 3.7k cache write (Est. 1 Premium request)") :=
  parsers_agree_when_match_has_cache_write
    (str "claude-sonnet-4.5    7.5k input, 52 output, 3.6k cache read, 3.7k cache write (Est. 1 Premium request)")
    ⟨⟨str "7.5", str "k", str "52", [], str "3.6", str "k"⟩, some (str "3.7", str "k")⟩
    (str "3.7", str "k") rfl (by decide)
